import Mathlib

/-!
Verification of the thread pool in `pool.py`.

The embedding is sequential: each public method of the `pool` class is a
function from the pool state to a result paired with the successor state.
Python exceptions become `Except.error`; the values that flow through the
pool (task return values, exception payloads) are a small inductive type
`PyVal` with a string constructor, because the pool compares stored values
against the string sentinel "IN_PROGRESS".  Timer arithmetic in
`get_return_value` is modelled in tenths of a second over `Nat` (the source
accumulates 0.1-second sleeps; we count whole tenths, avoiding floats).
The thread count and queue capacity are carried in the state but play no
role in the sequential model (a blocking `put` on a full queue has no
sequential meaning).
-/

namespace TPool

/-- A Python value as observed by the pool: the pool itself only compares
values against the string sentinel, so strings, integers and a unit value
suffice to represent arbitrary caller data. -/
inductive PyVal where
  | str : String → PyVal
  | int : Int → PyVal
  | noneV : PyVal
  deriving DecidableEq, Repr

/-- The sentinel stored by `execute` and tested by `is_task_in_progress`:
the Python string "IN_PROGRESS". -/
def inProgressMarker : PyVal := PyVal.str "IN_PROGRESS"

/-- The marker returned by `get_return_value` on timeout. -/
def unfinishedMarker : PyVal := PyVal.str "UNFINISHED (timed out waiting for return value)"

/-- The exceptions the pool can raise: RuntimeError from `execute` on a
stopped pool, ValueError from `_to_numeric_priority`, KeyError from the
`return_values` dictionary. -/
inductive PyErr where
  | runtimeError : PyErr
  | valueError : PyErr
  | keyError : PyErr
  deriving DecidableEq, Repr

/-- A caller-supplied callable: given positional and keyword arguments it
either returns a value or raises (carries the exception payload). -/
def PyFunc : Type := List PyVal → List (String × PyVal) → Except PyVal PyVal

/-- Lookup in a Python dictionary keyed by task id (assoc-list model). -/
def dictGet (d : List (Nat × PyVal)) (k : Nat) : Option PyVal :=
  match d with
  | [] => none
  | p :: rest => if p.1 = k then some p.2 else dictGet rest k

/-- Assignment `d[k] = v` in a Python dictionary: overwrite when the key is
present, append otherwise. -/
def dictSet (d : List (Nat × PyVal)) (k : Nat) (v : PyVal) : List (Nat × PyVal) :=
  match d with
  | [] => [(k, v)]
  | p :: rest => if p.1 = k then (k, v) :: rest else p :: dictSet rest k v

/-- `d.pop(k)`: remove the entry for `k` and return its value, or `none`
when the key is absent (Python would raise KeyError). -/
def dictPop (d : List (Nat × PyVal)) (k : Nat) : Option (PyVal × List (Nat × PyVal)) :=
  match d with
  | [] => none
  | p :: rest =>
    if p.1 = k then some (p.2, rest)
    else
      match dictPop rest k with
      | none => none
      | some (v, d2) => some (v, p :: d2)

/-- One entry of the priority queue: the tuple
`(priority, task_id, func, args, kwargs)` that `execute` enqueues. -/
structure Task where
  priority : Nat
  task_id : Nat
  func : PyFunc
  args : List PyVal
  kwargs : List (String × PyVal)

/-- The state of a `pool` object: the fields set by `__init__`, with the
task queue as the multiset of not-yet-dequeued entries. -/
structure PoolState where
  task_id : Nat
  task_queue : List Task
  return_values : List (Nat × PyVal)
  number_of_threads : Nat
  max_tasks : Nat
  stop_threads : Bool

/-- `pool.__init__(number_of_threads, max_tasks)`: counter at zero, empty
queue and dictionary, stop flag clear. -/
def pool_init (number_of_threads : Nat) (max_tasks : Nat) : PoolState :=
  { task_id := 0
    task_queue := []
    return_values := []
    number_of_threads := number_of_threads
    max_tasks := max_tasks
    stop_threads := false }

/-- A pool built with the default constructor arguments (2 threads,
capacity 256). -/
def freshPool : PoolState := pool_init 2 256

/-- `pool._to_numeric_priority`: the five fixed case-sensitive priority
strings mapped to ranks, ValueError otherwise. -/
def to_numeric_priority (priority : String) : Except PyErr Nat :=
  if priority = "ultra_low" then Except.ok 4
  else if priority = "low" then Except.ok 3
  else if priority = "normal" then Except.ok 2
  else if priority = "high" then Except.ok 1
  else if priority = "ultra_high" then Except.ok 0
  else Except.error PyErr.valueError

/-- `pool.execute(func, *args, priority, **kwargs)`.  Order of effects as
in the source: the stop-flag check raises RuntimeError before anything
else; the counter increment happens before `_to_numeric_priority` is
evaluated, so an invalid priority raises ValueError with the counter
already advanced; on success the task tuple is enqueued, the sentinel is
stored, and the new id is returned. -/
def execute (st : PoolState) (func : PyFunc) (args : List PyVal)
    (kwargs : List (String × PyVal)) (priority : String) :
    Except PyErr Nat × PoolState :=
  if st.stop_threads then (Except.error PyErr.runtimeError, st)
  else
    let st1 : PoolState := { st with task_id := st.task_id + 1 }
    match to_numeric_priority priority with
    | Except.error e => (Except.error e, st1)
    | Except.ok prio =>
      let t : Task :=
        { priority := prio, task_id := st1.task_id, func := func
          args := args, kwargs := kwargs }
      let st2 : PoolState := { st1 with task_queue := st1.task_queue ++ [t] }
      let st3 : PoolState :=
        { st2 with return_values := dictSet st2.return_values st1.task_id inProgressMarker }
      (Except.ok st1.task_id, st3)

/-- `execute` called without the priority keyword: the Python default
argument is the string "normal". -/
def execute_default_priority (st : PoolState) (func : PyFunc) (args : List PyVal)
    (kwargs : List (String × PyVal)) : Except PyErr Nat × PoolState :=
  execute st func args kwargs "normal"

/-- `pool.is_task_in_progress(task_id)`: dictionary lookup (KeyError when
absent) compared against the sentinel. -/
def is_task_in_progress (st : PoolState) (task_id : Nat) : Except PyErr Bool :=
  match dictGet st.return_values task_id with
  | none => Except.error PyErr.keyError
  | some v => Except.ok (decide (v = inProgressMarker))

/-- The polling loop of `get_return_value`: while the task is in progress,
sleep 0.1 s, add 0.1 to the timer, and return the unfinished marker once
the timer exceeds the timeout; afterwards pop and return the entry.
`timeout` and `timer` are in tenths of a second.  In the sequential model
no other thread runs during the loop, so the state is unchanged between
iterations. -/
def grvLoop (st : PoolState) (task_id : Nat) (timeout : Nat) (timer : Nat) :
    Except PyErr PyVal × PoolState :=
  match is_task_in_progress st task_id with
  | Except.error e => (Except.error e, st)
  | Except.ok true =>
    if _h : timeout < timer + 1 then (Except.ok unfinishedMarker, st)
    else grvLoop st task_id timeout (timer + 1)
  | Except.ok false =>
    match dictPop st.return_values task_id with
    | none => (Except.error PyErr.keyError, st)
    | some (v, d) => (Except.ok v, { st with return_values := d })
termination_by timeout - timer
decreasing_by omega

/-- `pool.get_return_value(task_id, timeout)`: the loop started with the
timer at zero.  The Python default timeout 86400 s is 864000 tenths. -/
def get_return_value (st : PoolState) (task_id : Nat) (timeout : Nat) :
    Except PyErr PyVal × PoolState :=
  grvLoop st task_id timeout 0

/-- `pool.stop()`: sets the flag, nothing else. -/
def stop (st : PoolState) : PoolState :=
  { st with stop_threads := true }

/-- The order the priority queue serves entries: ascending priority rank,
ties broken by ascending task id (heap order on the tuples; the comparison
never reaches the third component because task ids are distinct). -/
def lexLe (t u : Task) : Prop :=
  t.priority < u.priority ∨ (t.priority = u.priority ∧ t.task_id ≤ u.task_id)

/-- Strict version of `lexLe`. -/
def lexLt (t u : Task) : Prop :=
  t.priority < u.priority ∨ (t.priority = u.priority ∧ t.task_id < u.task_id)

instance (t u : Task) : Decidable (lexLe t u) := by
  unfold lexLe
  infer_instance

instance (t u : Task) : Decidable (lexLt t u) := by
  unfold lexLt
  infer_instance

/-- Select the minimum entry (heap-order least, earliest on ties) from a
nonempty collection given as head plus rest; returns it with the
remaining entries. -/
def selectMin (t : Task) (ts : List Task) : Task × List Task :=
  match ts with
  | [] => (t, [])
  | u :: us =>
    if lexLe t u then
      let r := selectMin t us
      (r.1, u :: r.2)
    else
      let r := selectMin u us
      (r.1, t :: r.2)

/-- `task_queue.get()`: remove and return the least entry, or `none` when
the queue is empty (the source blocks with a 1 s timeout and retries). -/
def taskQueueGet (q : List Task) : Option (Task × List Task) :=
  match q with
  | [] => none
  | t :: ts => some (selectMin t ts)

theorem selectMin_length (t : Task) (ts : List Task) :
    (selectMin t ts).2.length = ts.length := by
  induction ts generalizing t with
  | nil => rfl
  | cons u us ih =>
    unfold selectMin
    by_cases h : lexLe t u
    · simp [h, ih]
    · simp [h, ih]

/-- The sequence in which the queue entries are dequeued: repeatedly pop
the least entry. -/
def dequeueAll (q : List Task) : List Task :=
  match q with
  | [] => []
  | t :: ts => (selectMin t ts).1 :: dequeueAll (selectMin t ts).2
termination_by q.length
decreasing_by simp [selectMin_length]

/-- The four calling branches of `_run`: with/without positional and
keyword arguments (Python truthiness on the containers); all of them call
the function with the data the task carries. -/
def callFunction (f : PyFunc) (args : List PyVal) (kwargs : List (String × PyVal)) :
    Except PyVal PyVal :=
  if args.isEmpty then
    if kwargs.isEmpty then f [] [] else f [] kwargs
  else
    if kwargs.isEmpty then f args [] else f args kwargs

/-- The task-executing loop of `pool._run`, acting on the queue and the
return-value dictionary: dequeue the least entry, call its function, store
the outcome, repeat.  A raised exception inside the callable is NOT caught
by the source (the assignment to `return_values` never happens), so it
propagates and the loop ends: the result carries the updated dictionary,
the leftover queue, and the escaped exception payload when there is one. -/
def runTasksFuel : Nat → List Task → List (Nat × PyVal) →
    List (Nat × PyVal) × List Task × Option PyVal
  | 0, q, rv => (rv, q, none)
  | _ + 1, [], rv => (rv, [], none)
  | fuel + 1, t :: ts, rv =>
    let m := selectMin t ts
    match callFunction m.1.func m.1.args m.1.kwargs with
    | Except.error e => (rv, m.2, some e)
    | Except.ok v => runTasksFuel fuel m.2 (dictSet rv m.1.task_id v)

/-- `runTasksFuel` with enough fuel to drain the whole queue: every
iteration removes exactly one task, so the queue length suffices (the
fuel only makes the recursion structural; it is never exhausted). -/
def runTasks (q : List Task) (rv : List (Nat × PyVal)) :
    List (Nat × PyVal) × List Task × Option PyVal :=
  runTasksFuel q.length q rv

/-- One worker running `pool._run` until the queue is drained, modelled
sequentially.  The source rechecks the stop flag before every dequeue; the
flag cannot change during a sequential run, so it is checked once here.
The second component carries the exception that escaped the run loop, if
any. -/
def runWorker (st : PoolState) : PoolState × Option PyVal :=
  if st.stop_threads then (st, none)
  else
    let r := runTasks st.task_queue st.return_values
    ({ st with task_queue := r.2.1, return_values := r.1 }, r.2.2)

/-- A client operation against the pool facade, for lifetime traces. -/
inductive Op where
  | execOp : PyFunc → List PyVal → List (String × PyVal) → String → Op
  | stopOp : Op

/-- Run a trace of client operations from a state, collecting the ids
returned by the successful submissions in order. -/
def runOps (st : PoolState) : List Op → PoolState × List Nat
  | [] => (st, [])
  | Op.execOp f a k p :: ops =>
    match execute st f a k p with
    | (Except.ok tid, st1) =>
      let r := runOps st1 ops
      (r.1, tid :: r.2)
    | (Except.error _, st1) => runOps st1 ops
  | Op.stopOp :: ops => runOps (stop st) ops

/-- An operation whose submission cannot fail validation. -/
def validOp : Op → Prop
  | Op.execOp _ _ _ p => ∃ n, to_numeric_priority p = Except.ok n
  | Op.stopOp => True

/-- A callable that returns Python `None`. -/
def noopFunc : PyFunc := fun _ _ => Except.ok PyVal.noneV

/-- A callable that raises. -/
def raisingFunc : PyFunc := fun _ _ => Except.error (PyVal.str "ValueError: boom")

/-- A callable whose return value is exactly the string "IN_PROGRESS". -/
def sentinelFunc : PyFunc := fun _ _ => Except.ok (PyVal.str "IN_PROGRESS")

/-- A fresh pool after submitting a raising task (id 1) and then a no-op
task (id 2), both with priority "normal". -/
def C2state : PoolState :=
  (execute (execute freshPool raisingFunc [] [] "normal").2 noopFunc [] [] "normal").2

/-- A fresh pool after submitting one task whose callable returns the
sentinel string itself. -/
def C10state : PoolState := (execute freshPool sentinelFunc [] [] "normal").2

/-- A concrete pending queue for exercising the dequeue order: ids 1,2,3
with ranks 3,1,1. -/
def qWitness : List Task :=
  [{ priority := 3, task_id := 1, func := noopFunc, args := [], kwargs := [] },
   { priority := 1, task_id := 2, func := noopFunc, args := [], kwargs := [] },
   { priority := 1, task_id := 3, func := noopFunc, args := [], kwargs := [] }]

/-! ### Dictionary lemmas -/

theorem dictGet_dictSet_self (d : List (Nat × PyVal)) (k : Nat) (v : PyVal) :
    dictGet (dictSet d k v) k = some v := by
  induction d with
  | nil => simp [dictSet, dictGet]
  | cons p rest ih =>
    unfold dictSet
    by_cases h : p.1 = k
    · simp [h, dictGet]
    · simp [h, dictGet, ih]

theorem mem_keys_of_dictGet (d : List (Nat × PyVal)) (k : Nat) (v : PyVal)
    (h : dictGet d k = some v) : k ∈ d.map Prod.fst := by
  induction d with
  | nil => simp [dictGet] at h
  | cons q qs ih =>
    unfold dictGet at h
    by_cases hq : q.1 = k
    · simp [hq]
    · simp [hq] at h
      simp [ih h]

theorem dictPop_of_get (d : List (Nat × PyVal)) (k : Nat) (v : PyVal)
    (h : dictGet d k = some v) :
    ∃ d2, dictPop d k = some (v, d2) ∧
      ((d.map Prod.fst).Nodup → dictGet d2 k = none) := by
  induction d with
  | nil => simp [dictGet] at h
  | cons p rest ih =>
    unfold dictGet at h
    by_cases hk : p.1 = k
    · simp [hk] at h
      refine ⟨rest, by simp [dictPop, hk, h], ?_⟩
      intro hnd
      rw [List.map_cons, List.nodup_cons] at hnd
      cases hg : dictGet rest k with
      | none => rfl
      | some w => exact absurd (hk ▸ mem_keys_of_dictGet rest k w hg) hnd.1
    · simp [hk] at h
      obtain ⟨d2, hpop, hnone⟩ := ih h
      refine ⟨p :: d2, by simp [dictPop, hk, hpop], ?_⟩
      intro hnd
      rw [List.map_cons, List.nodup_cons] at hnd
      simp [dictGet, hk, hnone hnd.2]

/-! ### Queue ordering lemmas -/

theorem lexLe_refl (t : Task) : lexLe t t := by
  unfold lexLe
  omega

theorem lexLe_trans {t u w : Task} (h1 : lexLe t u) (h2 : lexLe u w) : lexLe t w := by
  unfold lexLe at h1 h2 ⊢
  omega

theorem lexLe_total (t u : Task) : lexLe t u ∨ lexLe u t := by
  unfold lexLe
  omega

theorem selectMin_perm (t : Task) (ts : List Task) :
    List.Perm ((selectMin t ts).1 :: (selectMin t ts).2) (t :: ts) := by
  induction ts generalizing t with
  | nil => exact List.Perm.refl _
  | cons u us ih =>
    unfold selectMin
    by_cases h : lexLe t u
    · simp only [h, if_true]
      exact ((List.Perm.swap u _ _).trans ((ih t).cons u)).trans (List.Perm.swap t u us)
    · simp only [h, if_false]
      exact (List.Perm.swap t _ _).trans ((ih u).cons t)

theorem selectMin_le (t : Task) (ts : List Task) :
    ∀ u ∈ t :: ts, lexLe (selectMin t ts).1 u := by
  induction ts generalizing t with
  | nil =>
    intro u hu
    simp at hu
    subst hu
    exact lexLe_refl u
  | cons w ws ih =>
    intro u hu
    rw [List.mem_cons, List.mem_cons] at hu
    unfold selectMin
    by_cases h : lexLe t w
    · simp only [h, if_true]
      rcases hu with rfl | rfl | hu
      · exact ih u u (List.mem_cons_self u ws)
      · exact lexLe_trans (ih t t (List.mem_cons_self t ws)) h
      · exact ih t u (List.mem_cons_of_mem t hu)
    · have hwt : lexLe w t := (lexLe_total t w).resolve_left h
      simp only [h, if_false]
      rcases hu with rfl | rfl | hu
      · exact lexLe_trans (ih w w (List.mem_cons_self w ws)) hwt
      · exact ih u u (List.mem_cons_self u ws)
      · exact ih w u (List.mem_cons_of_mem w hu)

theorem dequeueAll_perm : ∀ q : List Task, List.Perm (dequeueAll q) q
  | [] => by
    unfold dequeueAll
    exact List.Perm.refl _
  | t :: ts => by
    unfold dequeueAll
    exact ((dequeueAll_perm (selectMin t ts).2).cons _).trans (selectMin_perm t ts)
termination_by q => q.length
decreasing_by simp [selectMin_length]

theorem dequeueAll_sorted : ∀ q : List Task, List.Sorted lexLe (dequeueAll q)
  | [] => by
    unfold dequeueAll
    exact List.sorted_nil
  | t :: ts => by
    unfold dequeueAll
    rw [List.sorted_cons]
    refine ⟨?_, dequeueAll_sorted (selectMin t ts).2⟩
    intro u hu
    have hu2 : u ∈ (selectMin t ts).2 := (dequeueAll_perm _).mem_iff.mp hu
    have hmem : u ∈ t :: ts :=
      (selectMin_perm t ts).mem_iff.mp (List.mem_cons_of_mem _ hu2)
    exact selectMin_le t ts u hmem
termination_by q => q.length
decreasing_by all_goals simp [selectMin_length]

/-! ### The polling loop on a still-in-progress entry -/

theorem grvLoop_stuck :
    ∀ (st : PoolState) (tid timeout timer : Nat),
      dictGet st.return_values tid = some inProgressMarker →
      grvLoop st tid timeout timer = (Except.ok unfinishedMarker, st)
  | st, tid, timeout, timer, h => by
    by_cases hlt : timeout < timer + 1
    · unfold grvLoop is_task_in_progress
      rw [h]
      simp [hlt]
    · unfold grvLoop is_task_in_progress
      rw [h]
      simp only [decide_True, eq_self_iff_true, hlt, dite_false]
      exact grvLoop_stuck st tid timeout (timer + 1) h
termination_by st tid timeout timer h => timeout - timer
decreasing_by omega

/-! ### Characterization of `execute` -/

theorem execute_stopped (st : PoolState) (f : PyFunc) (a : List PyVal)
    (k : List (String × PyVal)) (p : String) (hstop : st.stop_threads = true) :
    execute st f a k p = (Except.error PyErr.runtimeError, st) := by
  simp [execute, hstop]

theorem execute_err_priority (st : PoolState) (f : PyFunc) (a : List PyVal)
    (k : List (String × PyVal)) (p : String) (e : PyErr)
    (hstop : st.stop_threads = false) (hp : to_numeric_priority p = Except.error e) :
    execute st f a k p = (Except.error e, { st with task_id := st.task_id + 1 }) := by
  simp [execute, hstop, hp]

theorem execute_ok_state (st : PoolState) (f : PyFunc) (a : List PyVal)
    (k : List (String × PyVal)) (p : String) (prio : Nat)
    (hstop : st.stop_threads = false) (hp : to_numeric_priority p = Except.ok prio) :
    execute st f a k p =
      (Except.ok (st.task_id + 1),
        { st with
            task_id := st.task_id + 1
            task_queue := st.task_queue ++
              [{ priority := prio, task_id := st.task_id + 1, func := f, args := a, kwargs := k }]
            return_values := dictSet st.return_values (st.task_id + 1) inProgressMarker }) := by
  simp [execute, hstop, hp]

/-! ### Claim C1 -/

/-- C1 counterexample: submitting with priority "bogus" on a fresh pool
fails with ValueError, yet the task id counter is advanced from 0 to 1, so
the part of the claim saying the identifier counter is unchanged is false
on the code (the increment happens before the priority string is
converted). -/
theorem C1_counterexample :
    (execute freshPool noopFunc [] [] "bogus").1 = Except.error PyErr.valueError ∧
    (execute freshPool noopFunc [] [] "bogus").2.task_id = 1 ∧
    freshPool.task_id = 0 :=
  ⟨rfl, rfl, rfl⟩

/-- C1 amended: on a running pool, a submission whose priority string is
unrecognized fails with ValueError and mutates neither the task queue nor
the result store, but it does advance the identifier counter by one. -/
theorem C1_invalid_priority_validation (st : PoolState) (f : PyFunc) (a : List PyVal)
    (k : List (String × PyVal)) (p : String)
    (hstop : st.stop_threads = false)
    (hp : to_numeric_priority p = Except.error PyErr.valueError) :
    execute st f a k p =
      (Except.error PyErr.valueError, { st with task_id := st.task_id + 1 }) := by
  simp [execute, hstop, hp]

/-- Witness for C1: the amended statement at a fresh pool and priority
"bogus". -/
theorem C1_invalid_priority_validation_witness :
    freshPool.stop_threads = false ∧
    to_numeric_priority "bogus" = Except.error PyErr.valueError ∧
    execute freshPool noopFunc [] [] "bogus" =
      (Except.error PyErr.valueError, { freshPool with task_id := freshPool.task_id + 1 }) :=
  ⟨rfl, rfl, C1_invalid_priority_validation freshPool noopFunc [] [] "bogus" rfl rfl⟩

/-! ### Claim C4 -/

/-- C4: whenever `execute` returns successfully with identifier `tid`, the
result store of the post state maps `tid` to the in-progress sentinel, so
`is_task_in_progress tid` returns true and does not raise KeyError. -/
theorem C4_submit_marks_in_progress (st : PoolState) (f : PyFunc) (a : List PyVal)
    (k : List (String × PyVal)) (p : String) (tid : Nat) (st2 : PoolState)
    (h : execute st f a k p = (Except.ok tid, st2)) :
    dictGet st2.return_values tid = some inProgressMarker ∧
    is_task_in_progress st2 tid = Except.ok true := by
  by_cases hstop : st.stop_threads
  · rw [execute_stopped st f a k p hstop] at h
    simp at h
  · have hstop' : st.stop_threads = false := by simpa using hstop
    cases hp : to_numeric_priority p with
    | error e =>
      rw [execute_err_priority st f a k p e hstop' hp] at h
      simp at h
    | ok prio =>
      rw [execute_ok_state st f a k p prio hstop' hp] at h
      rw [Prod.mk.injEq, Except.ok.injEq] at h
      obtain ⟨h1, h2⟩ := h
      subst h1
      subst h2
      refine ⟨dictGet_dictSet_self _ _ _, ?_⟩
      unfold is_task_in_progress
      rw [dictGet_dictSet_self]
      simp

/-- Witness for C4: a no-op submission on a fresh pool gets identifier 1
and is immediately marked in progress. -/
theorem C4_submit_marks_in_progress_witness :
    dictGet (execute freshPool noopFunc [] [] "normal").2.return_values 1 =
      some inProgressMarker ∧
    is_task_in_progress (execute freshPool noopFunc [] [] "normal").2 1 = Except.ok true :=
  C4_submit_marks_in_progress freshPool noopFunc [] [] "normal" 1
    (execute freshPool noopFunc [] [] "normal").2 rfl

/-! ### Claim C6 -/

/-- C6: once the result store holds a final outcome `v` (anything other
than the sentinel) for `tid`, the next `get_return_value` call returns `v`
and removes the entry, and every later `get_return_value` or
`is_task_in_progress` call for `tid` raises KeyError.  The no-duplicate
hypothesis on the store keys holds for every store built by the pool,
since Python dictionaries cannot repeat keys. -/
theorem C6_single_consumption (st : PoolState) (tid : Nat) (v : PyVal) (T : Nat)
    (hnd : (st.return_values.map Prod.fst).Nodup)
    (hv : dictGet st.return_values tid = some v)
    (hne : v ≠ inProgressMarker) :
    ∃ d2,
      get_return_value st tid T = (Except.ok v, { st with return_values := d2 }) ∧
      dictGet d2 tid = none ∧
      is_task_in_progress { st with return_values := d2 } tid =
        Except.error PyErr.keyError ∧
      get_return_value { st with return_values := d2 } tid T =
        (Except.error PyErr.keyError, { st with return_values := d2 }) := by
  obtain ⟨d2, hpop, hnone⟩ := dictPop_of_get _ _ _ hv
  have h2 := hnone hnd
  refine ⟨d2, ?_, h2, ?_, ?_⟩
  · unfold get_return_value grvLoop is_task_in_progress
    rw [hv]
    simp [hne, hpop]
  · unfold is_task_in_progress
    simp [h2]
  · unfold get_return_value grvLoop is_task_in_progress
    simp [h2]

/-- Witness for C6: a store holding the value 5 for task 1 is consumed by
the first read and raises KeyError on the second. -/
theorem C6_single_consumption_witness :
    ∃ d2,
      get_return_value { freshPool with return_values := [(1, PyVal.int 5)] } 1 2 =
        (Except.ok (PyVal.int 5),
          { { freshPool with return_values := [(1, PyVal.int 5)] } with return_values := d2 }) ∧
      dictGet d2 1 = none ∧
      is_task_in_progress
        { { freshPool with return_values := [(1, PyVal.int 5)] } with return_values := d2 } 1 =
        Except.error PyErr.keyError ∧
      get_return_value
        { { freshPool with return_values := [(1, PyVal.int 5)] } with return_values := d2 } 1 2 =
        (Except.error PyErr.keyError,
          { { freshPool with return_values := [(1, PyVal.int 5)] } with return_values := d2 }) :=
  C6_single_consumption { freshPool with return_values := [(1, PyVal.int 5)] } 1
    (PyVal.int 5) 2 (by decide) rfl (by decide)

/-! ### Claim C7 -/

/-- C7: while the entry for `tid` is still the in-progress sentinel,
`get_return_value` returns the unfinished marker once the timer exceeds
the timeout and leaves the whole state, in particular the entry for `tid`,
unchanged. -/
theorem C7_timeout_leaves_entry (st : PoolState) (tid : Nat) (T : Nat)
    (h : dictGet st.return_values tid = some inProgressMarker) :
    get_return_value st tid T = (Except.ok unfinishedMarker, st) := by
  unfold get_return_value
  exact grvLoop_stuck st tid T 0 h

/-- Witness for C7: after one submission on a fresh pool, reading task 1
with a short timeout returns the unfinished marker and the state is
untouched. -/
theorem C7_timeout_leaves_entry_witness :
    dictGet (execute freshPool noopFunc [] [] "normal").2.return_values 1 =
      some inProgressMarker ∧
    get_return_value (execute freshPool noopFunc [] [] "normal").2 1 3 =
      (Except.ok unfinishedMarker, (execute freshPool noopFunc [] [] "normal").2) :=
  ⟨rfl, C7_timeout_leaves_entry (execute freshPool noopFunc [] [] "normal").2 1 3 rfl⟩

/-! ### Claim C8 -/

/-- C8: once `stop` has been called, any `execute` call fails with
RuntimeError and the state is exactly the stopped state: no identifier is
allocated and neither the queue nor the result store is touched. -/
theorem C8_execute_after_stop (st : PoolState) (f : PyFunc) (a : List PyVal)
    (k : List (String × PyVal)) (p : String) :
    execute (stop st) f a k p = (Except.error PyErr.runtimeError, stop st) := by
  simp [execute, stop]

/-! ### Claim C9 -/

/-- C9: the priority mapping is exactly the five fixed case-sensitive
pairs, every other string is a ValueError, and a submission that omits the
priority keyword enqueues its task with rank 2 (the default is the string
"normal"). -/
theorem C9_priority_levels :
    to_numeric_priority "ultra_high" = Except.ok 0 ∧
    to_numeric_priority "high" = Except.ok 1 ∧
    to_numeric_priority "normal" = Except.ok 2 ∧
    to_numeric_priority "low" = Except.ok 3 ∧
    to_numeric_priority "ultra_low" = Except.ok 4 ∧
    (∀ s : String, s ≠ "ultra_high" → s ≠ "high" → s ≠ "normal" → s ≠ "low" →
      s ≠ "ultra_low" → to_numeric_priority s = Except.error PyErr.valueError) ∧
    (∀ (st : PoolState) (f : PyFunc) (a : List PyVal) (k : List (String × PyVal)),
      st.stop_threads = false →
      (execute_default_priority st f a k).2.task_queue =
        st.task_queue ++
          [{ priority := 2, task_id := st.task_id + 1, func := f, args := a, kwargs := k }]) := by
  refine ⟨rfl, rfl, rfl, rfl, rfl, ?_, ?_⟩
  · intro s h1 h2 h3 h4 h5
    simp [to_numeric_priority, h1, h2, h3, h4, h5]
  · intro st f a k hstop
    rw [execute_default_priority,
      execute_ok_state st f a k "normal" 2 hstop rfl]

/-! ### Claim C5 -/

theorem runOps_ids : ∀ (ops : List Op) (st : PoolState),
    List.Pairwise (fun a b => a < b) (runOps st ops).2 ∧
    ∀ i ∈ (runOps st ops).2, st.task_id < i := by
  intro ops
  induction ops with
  | nil =>
    intro st
    simp [runOps]
  | cons op ops ih =>
    intro st
    cases op with
    | stopOp =>
      simp only [runOps]
      exact ⟨(ih (stop st)).1, (ih (stop st)).2⟩
    | execOp f a k p =>
      by_cases hstop : st.stop_threads
      · simp only [runOps, execute_stopped st f a k p hstop]
        exact ih st
      · have hstop2 : st.stop_threads = false := by simpa using hstop
        cases hp : to_numeric_priority p with
        | error e =>
          simp only [runOps, execute_err_priority st f a k p e hstop2 hp]
          refine ⟨(ih _).1, fun i hi => ?_⟩
          have h3 := (ih _).2 i hi
          simp at h3
          omega
        | ok prio =>
          simp only [runOps, execute_ok_state st f a k p prio hstop2 hp]
          constructor
          · rw [List.pairwise_cons]
            refine ⟨fun i hi => ?_, (ih _).1⟩
            have h3 := (ih _).2 i hi
            simp at h3
            omega
          · intro i hi
            rw [List.mem_cons] at hi
            rcases hi with rfl | hi
            · omega
            · have h3 := (ih _).2 i hi
              simp at h3
              omega

theorem runOps_consecutive : ∀ (ops : List Op) (st : PoolState),
    (∀ op ∈ ops, validOp op) →
    ∃ n, (runOps st ops).2 = List.range' (st.task_id + 1) n := by
  intro ops
  induction ops with
  | nil =>
    intro st _
    exact ⟨0, by simp [runOps]⟩
  | cons op ops ih =>
    intro st hv
    cases op with
    | stopOp =>
      simp only [runOps]
      exact ih (stop st) (fun o ho => hv o (List.mem_cons_of_mem _ ho))
    | execOp f a k p =>
      obtain ⟨prio, hp⟩ := hv _ (List.mem_cons_self _ _)
      by_cases hstop : st.stop_threads
      · simp only [runOps, execute_stopped st f a k p hstop]
        exact ih st (fun o ho => hv o (List.mem_cons_of_mem _ ho))
      · have hstop2 : st.stop_threads = false := by simpa using hstop
        simp only [runOps, execute_ok_state st f a k p prio hstop2 hp]
        obtain ⟨n, hn⟩ := ih _ (fun o ho => hv o (List.mem_cons_of_mem _ ho))
        refine ⟨n + 1, ?_⟩
        rw [hn]
        rfl

/-- C5 counterexample: a validation-failed submission consumes an
identifier, so after a "bogus"-priority attempt the first successful
submission returns 2, not 1. -/
theorem C5_counterexample :
    (runOps freshPool
        [Op.execOp noopFunc [] [] "bogus", Op.execOp noopFunc [] [] "normal"]).2 = [2] ∧
    (2 : Nat) ≠ 1 :=
  ⟨rfl, by decide⟩

/-- C5 amended: over any lifetime trace the successful submissions return
strictly increasing identifiers with no repeats; when no submission fails
priority validation the identifiers are exactly the consecutive integers
starting at 1 (a failed validation burns an identifier, shifting later
ones). -/
theorem C5_ids_strictly_increasing (ops : List Op) :
    List.Pairwise (fun a b => a < b) (runOps freshPool ops).2 ∧
    ((∀ op ∈ ops, validOp op) →
      ∃ n, (runOps freshPool ops).2 = List.range' 1 n) :=
  ⟨(runOps_ids ops freshPool).1, fun hv => runOps_consecutive ops freshPool hv⟩

/-- Witness for C5: two valid submissions on a fresh pool give ids 1, 2. -/
theorem C5_ids_strictly_increasing_witness :
    List.Pairwise (fun a b => a < b)
      (runOps freshPool
        [Op.execOp noopFunc [] [] "normal", Op.execOp noopFunc [] [] "high"]).2 ∧
    ∃ n, (runOps freshPool
        [Op.execOp noopFunc [] [] "normal", Op.execOp noopFunc [] [] "high"]).2 =
      List.range' 1 n :=
  ⟨(C5_ids_strictly_increasing _).1,
    (C5_ids_strictly_increasing _).2 (by
      intro op hop
      rw [List.mem_cons, List.mem_cons] at hop
      rcases hop with rfl | rfl | hop
      · exact ⟨2, rfl⟩
      · exact ⟨1, rfl⟩
      · simp at hop)⟩

/-! ### Claim C3 -/

theorem pairwise_lexLt_of_sorted_nodup (l : List Task)
    (hs : List.Sorted lexLe l)
    (hnd : (l.map Task.task_id).Nodup) :
    List.Pairwise lexLt l := by
  induction l with
  | nil => exact List.Pairwise.nil
  | cons t ts ih =>
    rw [List.sorted_cons] at hs
    rw [List.map_cons, List.nodup_cons] at hnd
    refine List.Pairwise.cons ?_ (ih hs.2 hnd.2)
    intro u hu
    have hle := hs.1 u hu
    have hne : t.task_id ≠ u.task_id := by
      intro he
      exact hnd.1 (by rw [he]; exact List.mem_map_of_mem Task.task_id hu)
    unfold lexLe at hle
    unfold lexLt
    omega

/-- C3: with pairwise distinct task ids (which the id allocator
guarantees), the dequeue sequence is a permutation of the pending tasks,
is sorted by non-decreasing priority rank with ties by ascending id, and
is strictly sorted in that lexicographic order, which pins it to the
stable sort of the pending tasks by (priority rank, identifier). -/
theorem C3_dequeue_order (q : List Task) (hnd : (q.map Task.task_id).Nodup) :
    List.Perm (dequeueAll q) q ∧
    List.Sorted lexLe (dequeueAll q) ∧
    List.Pairwise lexLt (dequeueAll q) := by
  have hperm := dequeueAll_perm q
  have hsort := dequeueAll_sorted q
  have hnd2 : ((dequeueAll q).map Task.task_id).Nodup :=
    ((hperm.map Task.task_id).nodup_iff).mpr hnd
  exact ⟨hperm, hsort, pairwise_lexLt_of_sorted_nodup _ hsort hnd2⟩

/-- Witness for C3: the concrete queue has distinct ids and dequeues as a
strictly lex-sorted permutation of itself. -/
theorem C3_dequeue_order_witness :
    (qWitness.map Task.task_id).Nodup ∧
    (List.Perm (dequeueAll qWitness) qWitness ∧
      List.Sorted lexLe (dequeueAll qWitness) ∧
      List.Pairwise lexLt (dequeueAll qWitness)) :=
  ⟨by decide, C3_dequeue_order qWitness (by decide)⟩

/-- Witness for C9: "bogus" is rejected, and a default-priority submission
on a fresh pool enqueues its task with rank 2. -/
theorem C9_priority_levels_witness :
    to_numeric_priority "bogus" = Except.error PyErr.valueError ∧
    (execute_default_priority freshPool noopFunc [] []).2.task_queue =
      freshPool.task_queue ++
        [{ priority := 2, task_id := 1, func := noopFunc, args := [], kwargs := [] }] :=
  ⟨C9_priority_levels.2.2.2.2.2.1 "bogus" (by decide) (by decide) (by decide)
      (by decide) (by decide),
    C9_priority_levels.2.2.2.2.2.2 freshPool noopFunc [] [] rfl⟩

/-! ### Claim C2 -/

/-- C2 is violated by the code: after submitting a raising task (id 1) and
a no-op task (id 2), the worker run loop ends with the exception escaping
(no outcome is stored for id 1, which stays at the sentinel), task 2 is
left unprocessed in the queue, and `get_return_value 1` does not surface
the failure: it polls until the timeout and returns the unfinished
marker. -/
theorem C2_uncaught_exception_consequences :
    (runWorker C2state).2 = some (PyVal.str "ValueError: boom") ∧
    dictGet (runWorker C2state).1.return_values 1 = some inProgressMarker ∧
    (runWorker C2state).1.task_queue =
      [{ priority := 2, task_id := 2, func := noopFunc, args := [], kwargs := [] }] ∧
    get_return_value (runWorker C2state).1 1 3 =
      (Except.ok unfinishedMarker, (runWorker C2state).1) := by
  refine ⟨rfl, rfl, rfl, ?_⟩
  unfold get_return_value
  exact grvLoop_stuck _ 1 3 0 rfl

/-! ### Claim C10 -/

/-- C10: completion is detected by comparing against the string sentinel,
so a task whose callable returns exactly "IN_PROGRESS" is stored yet still
reported as in progress, and `get_return_value` never returns that value:
it polls until the timeout and returns the unfinished marker, leaving the
state unchanged. -/
theorem C10_sentinel_collision (st : PoolState) (t : Task) (T : Nat)
    (hstop : st.stop_threads = false)
    (hq : st.task_queue = [t])
    (hf : callFunction t.func t.args t.kwargs = Except.ok inProgressMarker) :
    (runWorker st).2 = none ∧
    dictGet (runWorker st).1.return_values t.task_id = some inProgressMarker ∧
    is_task_in_progress (runWorker st).1 t.task_id = Except.ok true ∧
    get_return_value (runWorker st).1 t.task_id T =
      (Except.ok unfinishedMarker, (runWorker st).1) := by
  have h2 : runTasks [t] st.return_values =
      (dictSet st.return_values t.task_id inProgressMarker, [], none) := by
    show (match callFunction t.func t.args t.kwargs with
      | Except.error e => (st.return_values, [], some e)
      | Except.ok v =>
        runTasksFuel 0 [] (dictSet st.return_values t.task_id v)) = _
    rw [hf]
    rfl
  have h1 : runWorker st =
      ({ st with
          task_queue := []
          return_values := dictSet st.return_values t.task_id inProgressMarker }, none) := by
    unfold runWorker
    rw [hstop, hq, h2]
    rfl
  rw [h1]
  refine ⟨rfl, dictGet_dictSet_self _ _ _, ?_, ?_⟩
  · unfold is_task_in_progress
    rw [dictGet_dictSet_self]
    simp
  · unfold get_return_value
    exact grvLoop_stuck _ _ T 0 (dictGet_dictSet_self _ _ _)

/-- Witness for C10: the concrete one-task pool whose callable returns
"IN_PROGRESS". -/
theorem C10_sentinel_collision_witness :
    (runWorker C10state).2 = none ∧
    dictGet (runWorker C10state).1.return_values 1 = some inProgressMarker ∧
    is_task_in_progress (runWorker C10state).1 1 = Except.ok true ∧
    get_return_value (runWorker C10state).1 1 2 =
      (Except.ok unfinishedMarker, (runWorker C10state).1) :=
  C10_sentinel_collision C10state
    { priority := 2, task_id := 1, func := sentinelFunc, args := [], kwargs := [] } 2
    rfl rfl rfl

end TPool
